import Mathlib

/-
Verification of the REST service registry + dynamic dispatcher of
GestOrderBot_003 (file mcp_server.py): catalog loading from XML,
schema parsing, header resolution, argument binding and the
call_rest_service dispatcher, embedded shallowly in Lean.
-/

namespace GestOrder

/- ===================== Generic dict / string helpers ===================== -/

/-- Association-list lookup, modelling Python `dict.get` / `dict[k]`
(first match; dictionaries built via `dset` have unique keys). -/
def dlookup {β : Type} (d : List (String × β)) (k : String) : Option β :=
  match d with
  | [] => none
  | (k1, v) :: rest => if k1 = k then some v else dlookup rest k

/-- Python `d[k] = v` on a dict: update in place if the key exists,
else append at the end (insertion order preserved). -/
def dset {β : Type} (d : List (String × β)) (k : String) (v : β) : List (String × β) :=
  match d with
  | [] => [(k, v)]
  | (k1, v1) :: rest => if k1 = k then (k, v) :: rest else (k1, v1) :: dset rest k v

/-- Python `k in d` on a dict. -/
def dmem {β : Type} (d : List (String × β)) (k : String) : Bool :=
  (dlookup d k).isSome

/-- Python `sep.join(xs)`. -/
def pyJoin (sep : String) : List String → String
  | [] => ""
  | [x] => x
  | x :: xs => x ++ sep ++ pyJoin sep xs

/-- Python `s.lower()` (ASCII range, which is all the source uses). -/
def pyLower (s : String) : String := String.mk (s.data.map Char.toLower)

/-- Python `s.upper()` (ASCII range, which is all the source uses). -/
def pyUpper (s : String) : String := String.mk (s.data.map Char.toUpper)

/-- Python `s.rstrip("/")`: drop all trailing slash characters. -/
def rstripSlash (s : String) : String :=
  String.mk ((s.data.reverse.dropWhile (fun c => c = '/')).reverse)

/-- Python `s.replace(pat, rep)` on character lists: replace every
leftmost non-overlapping occurrence of `pat`.  The `fuel` argument is a
recursion bound; `fuel = length of the string` always suffices for a
non-empty pattern (the only way the source calls it). -/
def replaceFuel (pat rep : List Char) : Nat → List Char → List Char
  | 0, s => s
  | Nat.succ f, s =>
    match s with
    | [] => []
    | c :: rest =>
      if pat.isPrefixOf (c :: rest) then
        rep ++ replaceFuel pat rep f ((c :: rest).drop pat.length)
      else
        c :: replaceFuel pat rep f rest

/-- Python `s.replace(pat, rep)` on strings. -/
def pyReplace (s pat rep : String) : String :=
  String.mk (replaceFuel pat.data rep.data s.data.length s.data)

/- ===================== Python values ===================== -/

/-- A Python value as it can appear in a caller-supplied argument bag or
in a decoded JSON response: JSON-style scalars, lists and dicts, plus
`obj`, an arbitrary non-JSON-serializable Python object (identified by a
tag so distinct objects can be told apart). -/
inductive PyVal where
  | str : String → PyVal
  | int : Int → PyVal
  | bool : Bool → PyVal
  | none : PyVal
  | list : List PyVal → PyVal
  | dict : List (String × PyVal) → PyVal
  | obj : Nat → PyVal

/-- Python `repr` of a single character inside a string literal
(simplified: only the quote and backslash are escaped). -/
def pyReprChar (c : Char) : String :=
  if c = '\\' then "\\\\"
  else if c = '\x27' then "\\\x27"
  else String.mk [c]

mutual
/-- Python `str(v)`. -/
def pyStr : PyVal → String
  | PyVal.str s => s
  | PyVal.int n => toString n
  | PyVal.bool b => if b then "True" else "False"
  | PyVal.none => "None"
  | PyVal.list xs => "[" ++ pyJoin ", " (pyReprList xs) ++ "]"
  | PyVal.dict kvs => "\x7b" ++ pyJoin ", " (pyReprDict kvs) ++ "\x7d"
  | PyVal.obj n => "<object " ++ toString n ++ ">"

/-- Python `repr(v)` (strings get quoted, containers recurse). -/
def pyRepr : PyVal → String
  | PyVal.str s => "\x27" ++ String.join (s.data.map pyReprChar) ++ "\x27"
  | PyVal.int n => toString n
  | PyVal.bool b => if b then "True" else "False"
  | PyVal.none => "None"
  | PyVal.list xs => "[" ++ pyJoin ", " (pyReprList xs) ++ "]"
  | PyVal.dict kvs => "\x7b" ++ pyJoin ", " (pyReprDict kvs) ++ "\x7d"
  | PyVal.obj n => "<object " ++ toString n ++ ">"

/-- Reprs of the elements of a Python list. -/
def pyReprList : List PyVal → List String
  | [] => []
  | v :: vs => pyRepr v :: pyReprList vs

/-- Reprs of the entries of a Python dict (quoted key, colon, repr of value). -/
def pyReprDict : List (String × PyVal) → List String
  | [] => []
  | (k, v) :: kvs =>
      ("\x27" ++ k ++ "\x27: " ++ pyRepr v) :: pyReprDict kvs
end

/-- JSON escape of one character, as `json.dumps` with
`ensure_ascii=False` produces it. -/
def jsonEscapeChar (c : Char) : String :=
  if c = '"' then "\\\""
  else if c = '\\' then "\\\\"
  else if c = '\n' then "\\n"
  else if c = '\r' then "\\r"
  else if c = '\t' then "\\t"
  else if c.toNat < 32 then
    "\\u00" ++ String.mk [Nat.digitChar (c.toNat / 16), Nat.digitChar (c.toNat % 16)]
  else String.mk [c]

/-- JSON rendering of a Python string with surrounding quotes. -/
def jsonStr (s : String) : String :=
  "\"" ++ String.join (s.data.map jsonEscapeChar) ++ "\""

mutual
/-- Python `json.dumps(v, ensure_ascii=False)` with the default
separators: `none` models the `TypeError` raised on a value that is not
JSON serializable. -/
def jsonDumps : PyVal → Option String
  | PyVal.str s => some (jsonStr s)
  | PyVal.int n => some (toString n)
  | PyVal.bool b => some (if b then "true" else "false")
  | PyVal.none => some "null"
  | PyVal.list xs =>
      match jsonDumpsList xs with
      | some parts => some ("[" ++ pyJoin ", " parts ++ "]")
      | none => none
  | PyVal.dict kvs =>
      match jsonDumpsDict kvs with
      | some parts => some ("\x7b" ++ pyJoin ", " parts ++ "\x7d")
      | none => none
  | PyVal.obj _ => none

/-- Serialization of the elements of a JSON array. -/
def jsonDumpsList : List PyVal → Option (List String)
  | [] => some []
  | v :: vs =>
      match jsonDumps v with
      | some s =>
          match jsonDumpsList vs with
          | some rest => some (s :: rest)
          | none => none
      | none => none

/-- Serialization of the entries of a JSON object (`"k": v`). -/
def jsonDumpsDict : List (String × PyVal) → Option (List String)
  | [] => some []
  | (k, v) :: kvs =>
      match jsonDumps v with
      | some s =>
          match jsonDumpsDict kvs with
          | some rest => some ((jsonStr k ++ ": " ++ s) :: rest)
          | none => none
      | none => none
end

/-- Upper-case hexadecimal digit, as percent-encoding renders it. -/
def hexDigitUpper (n : Nat) : Char :=
  if n < 10 then Nat.digitChar n else Char.ofNat ('A'.toNat + n - 10)

/-- Percent-encoding of one character as `urllib.parse.quote_plus` does
for the ASCII range (the source only ever builds the encoded query
string for logging). -/
def quotePlusChar (c : Char) : String :=
  if c.isAlphanum || c = '_' || c = '.' || c = '-' || c = '~' then String.mk [c]
  else if c = ' ' then "+"
  else "%" ++ String.mk [hexDigitUpper (c.toNat / 16 % 16), hexDigitUpper (c.toNat % 16)]

/-- Python `urllib.parse.quote_plus` on a string (ASCII range). -/
def quotePlus (s : String) : String :=
  String.join (s.data.map quotePlusChar)

/-- One `k=v` pair of `urllib.parse.urlencode(query, doseq=True)`:
strings are quoted directly, sequence values contribute one pair per
element, anything else goes through `str()`. -/
def urlencodePair (k : String) (v : PyVal) : List String :=
  match v with
  | PyVal.str s => [quotePlus k ++ "=" ++ quotePlus s]
  | PyVal.list xs => xs.map (fun x => quotePlus k ++ "=" ++ quotePlus (pyStr x))
  | other => [quotePlus k ++ "=" ++ quotePlus (pyStr other)]

/-- Python `urllib.parse.urlencode(query, doseq=True)`. -/
def pyUrlencode (q : List (String × PyVal)) : String :=
  pyJoin "&" (q.flatMap (fun kv => urlencodePair kv.1 kv.2))

/- ===================== Config data classes ===================== -/

/-- Dataclass `JsonSchemaField`: a node of the nested JSON schema of a
structured parameter (fields for objects, items for arrays). -/
inductive JsonSchemaField where
  | mk : (name : Option String) → (type : String) → (required : Bool) →
      (fields : List JsonSchemaField) → (items : Option JsonSchemaField) →
      JsonSchemaField

/-- Projection of the `name` attribute of a schema field. -/
def JsonSchemaField.name : JsonSchemaField → Option String
  | .mk n _ _ _ _ => n

/-- Projection of the `type` attribute of a schema field. -/
def JsonSchemaField.type : JsonSchemaField → String
  | .mk _ t _ _ _ => t

/-- Projection of the `required` attribute of a schema field. -/
def JsonSchemaField.required : JsonSchemaField → Bool
  | .mk _ _ r _ _ => r

/-- Projection of the `fields` list of a schema field. -/
def JsonSchemaField.fields : JsonSchemaField → List JsonSchemaField
  | .mk _ _ _ fs _ => fs

/-- Projection of the `items` sub-schema of a schema field. -/
def JsonSchemaField.items : JsonSchemaField → Option JsonSchemaField
  | .mk _ _ _ _ it => it

/-- Dataclass `ParamConfig`: one declared parameter of a REST service. -/
structure ParamConfig where
  name : String
  required : Bool
  location : String
  type : String
  schema : Option JsonSchemaField

/-- Dataclass `HeaderConfig`: one configurable HTTP header of a service
(`value` is the literal from the XML, `env` the name of an environment
variable to read at call time). -/
structure HeaderConfig where
  name : String
  value : Option String
  env : Option String

/-- Dataclass `ServiceConfig`: one REST endpoint from the XML catalog. -/
structure ServiceConfig where
  name : String
  method : String
  path : String
  params : List ParamConfig
  headers : List HeaderConfig
  base_url_override : Option String

/-- Dataclass `RestConfig`: global base URL plus the service dictionary
(modelled as an insertion-ordered association list with unique keys). -/
structure RestConfig where
  base_url : String
  services : List (String × ServiceConfig)

/- ===================== XML model ===================== -/

/-- An already-parsed XML element as `xml.etree.ElementTree` presents
it: tag, attribute dictionary, list of child elements. -/
inductive XmlElem where
  | mk : (tag : String) → (attrs : List (String × String)) →
      (children : List XmlElem) → XmlElem

/-- Projection of the tag of an element. -/
def XmlElem.tag : XmlElem → String
  | .mk t _ _ => t

/-- Projection of the attribute dictionary of an element. -/
def XmlElem.attrs : XmlElem → List (String × String)
  | .mk _ a _ => a

/-- Projection of the child list of an element. -/
def XmlElem.children : XmlElem → List XmlElem
  | .mk _ _ c => c

/-- Python `el.attrib.get(k)`. -/
def attrGet (el : XmlElem) (k : String) : Option String :=
  dlookup el.attrs k

/-- Python `el.attrib.get(k, dflt)`. -/
def attrGetD (el : XmlElem) (k dflt : String) : String :=
  (attrGet el k).getD dflt

/- ===================== Schema parsing (_parse_json_field) ===================== -/

mutual
/-- Source function `_parse_json_field`: recursively parse a `<Field>` element (and the
optional `<Item>` inside an array field) into a `JsonSchemaField`. -/
def parse_json_field : XmlElem → JsonSchemaField
  | XmlElem.mk _tag attrs children =>
    let name := dlookup attrs "name"
    let f_type := (dlookup attrs "type").getD "string"
    let required := pyLower ((dlookup attrs "required").getD "false") = "true"
    let flds := if f_type = "object" then parseFieldChildren children else []
    let itm := if f_type = "array" then parseItemChild children else Option.none
    JsonSchemaField.mk name f_type required flds itm

/-- Recursion of `_parse_json_field` over `field_el.findall("Field")`:
parse, in order, exactly the direct children tagged `Field`. -/
def parseFieldChildren : List XmlElem → List JsonSchemaField
  | [] => []
  | el :: rest =>
      if el.tag = "Field" then parse_json_field el :: parseFieldChildren rest
      else parseFieldChildren rest

/-- Python `field_el.find("Item")` followed by the array branch of
`_parse_json_field`: build the item schema from the first direct child
tagged `Item`, if any. -/
def parseItemChild : List XmlElem → Option JsonSchemaField
  | [] => Option.none
  | el :: rest =>
      if el.tag = "Item" then some (parseItemElem el)
      else parseItemChild rest

/-- Construction of the item schema of an array field: `type` defaults
to `object`, and only an object item recurses into its `<Field>`s. -/
def parseItemElem : XmlElem → JsonSchemaField
  | XmlElem.mk _tag attrs children =>
    let item_type := (dlookup attrs "type").getD "object"
    let item_fields := if item_type = "object" then parseFieldChildren children else []
    JsonSchemaField.mk Option.none item_type false item_fields Option.none
end

/-- Source function `_parse_json_schema_from_param`: if the `<Param>` contains `<Field>`
sub-elements, build the nested JSON schema rooted at a node of type
`param_type or "object"`; otherwise return `none`. -/
def parse_json_schema_from_param (param_el : XmlElem) (param_type : String) :
    Option JsonSchemaField :=
  let field_els := param_el.children.filter (fun c => c.tag = "Field")
  if field_els.isEmpty then Option.none
  else
    let root_type := if param_type = "" then "object" else param_type
    some (JsonSchemaField.mk Option.none root_type false
      (parseFieldChildren param_el.children) Option.none)

/- ===================== Catalog loading (load_rest_config_from_xml) ===================== -/

/-- Parsing of one `<Param>` element inside a `<Service>`: `none` when
the param has no usable name and is skipped with a warning. -/
def parseParamElem (param_el : XmlElem) : Option ParamConfig :=
  match attrGet param_el "name" with
  | Option.none => Option.none
  | some p_name =>
    if p_name = "" then Option.none
    else
      let required := pyLower (attrGetD param_el "required" "false") = "true"
      let loc0 := match attrGet param_el "location" with
        | some s => if s = "" then "query" else s
        | Option.none => "query"
      let location0 := pyLower loc0
      let location :=
        if location0 = "path" ∨ location0 = "query" ∨ location0 = "body" then location0
        else "query"
      let p_type := attrGetD param_el "type" "string"
      some
        { name := p_name
          required := required
          location := location
          type := p_type
          schema := parse_json_schema_from_param param_el p_type }

/-- Parsing of one `<Header>` element inside a `<Service>`: `none` when
the header has no usable name and is skipped with a warning. -/
def parseHeaderElem (hdr_el : XmlElem) : Option HeaderConfig :=
  match attrGet hdr_el "name" with
  | Option.none => Option.none
  | some h_name =>
    if h_name = "" then Option.none
    else
      some { name := h_name, value := attrGet hdr_el "value", env := attrGet hdr_el "env" }

/-- Parsing of one `<Service>` element: `none` when the service lacks a
name or a path and is skipped with a warning. -/
def parseServiceElem (svc_el : XmlElem) : Option ServiceConfig :=
  let nameAttr := (attrGet svc_el "name").getD ""
  let method := pyUpper (match attrGet svc_el "method" with
    | some s => if s = "" then "GET" else s
    | Option.none => "GET")
  let path_attr := attrGetD svc_el "path" ""
  if nameAttr = "" ∨ path_attr = "" then Option.none
  else
    let base_url_override := attrGet svc_el "baseUrlOverride"
    let params_cfg := (svc_el.children.filter (fun c => c.tag = "Param")).filterMap parseParamElem
    let headers_cfg := (svc_el.children.filter (fun c => c.tag = "Header")).filterMap parseHeaderElem
    some
      { name := nameAttr
        method := method
        path := path_attr
        params := params_cfg
        headers := headers_cfg
        base_url_override := base_url_override }

/-- Accumulation of the `services` dictionary over the `<Service>`
elements: well-formed services are inserted under their name (a
duplicate name overwrites the earlier entry), malformed ones are
skipped. -/
def parseServices (els : List XmlElem) : List (String × ServiceConfig) :=
  els.foldl
    (fun acc el =>
      match parseServiceElem el with
      | some svc => dset acc svc.name svc
      | Option.none => acc)
    []

/-- Source function `load_rest_config_from_xml`: the source is modelled as an already
parsed tree; `Option.none` stands for a file that is absent, unreadable
or fails XML parsing (all raise `ValueError` in the source).  The other
two fatal conditions are a root tag other than `RestServices` and a
`baseUrl` attribute that is empty after stripping trailing slashes. -/
def load_rest_config_from_xml (src : Option XmlElem) : Except String RestConfig :=
  match src with
  | Option.none => Except.error "File XML non trovato"
  | some root =>
    if root.tag ≠ "RestServices" then
      Except.error "Root XML deve essere <RestServices>"
    else
      let base_url := rstripSlash ((attrGet root "baseUrl").getD "")
      if base_url = "" then
        Except.error "Attributo baseUrl mancante su <RestServices>"
      else
        Except.ok
          { base_url := base_url
            services := parseServices (root.children.filter (fun c => c.tag = "Service")) }

/- ===================== Required-parameter validation ===================== -/

/-- The loop collecting the names of required parameters absent from the
argument bag, in declaration order. -/
def missingRequiredNames (params : List ParamConfig) (arguments : List (String × PyVal)) :
    List String :=
  (params.filter (fun p => p.required && ! dmem arguments p.name)).map (fun p => p.name)

/- ===================== Argument binding ===================== -/

/-- Step 1 of the binder: for every path-located parameter present in
the argument bag, replace the literal substring made of the parameter
name between braces in the URL by `str(value)`. -/
def substPathParams (params : List ParamConfig) (arguments : List (String × PyVal))
    (url : String) : String :=
  params.foldl
    (fun u p =>
      if p.location = "path" then
        match dlookup arguments p.name with
        | some v => pyReplace u ("\x7b" ++ p.name ++ "\x7d") (pyStr v)
        | Option.none => u
      else u)
    url

/-- Step 2 of the binder: collect query-located parameters present in
the argument bag into the query dict, in declaration order. -/
def buildQueryParams (params : List ParamConfig) (arguments : List (String × PyVal)) :
    List (String × PyVal) :=
  params.foldl
    (fun acc p =>
      if p.location = "query" then
        match dlookup arguments p.name with
        | some v => dset acc p.name v
        | Option.none => acc
      else acc)
    []

/-- Step 3 of the binder: collect body-located parameters present in
the argument bag into the body payload dict, in declaration order. -/
def buildBodyPayload (params : List ParamConfig) (arguments : List (String × PyVal)) :
    List (String × PyVal) :=
  params.foldl
    (fun acc p =>
      if p.location = "body" then
        match dlookup arguments p.name with
        | some v => dset acc p.name v
        | Option.none => acc
      else acc)
    []

/- ===================== Header resolution ===================== -/

/-- One iteration of the header loop of the source: if `env` is set
(truthy) and the named environment variable resolves to a non-empty
value, assign it; afterwards, if a truthy literal `value` exists and the
header name is not yet in the dict, assign the literal. -/
def headerStep (env : String → Option String) (h : HeaderConfig)
    (acc : List (String × String)) : List (String × String) :=
  let acc1 :=
    match h.env with
    | some e =>
        if e ≠ "" then
          match env e with
          | some env_val => if env_val ≠ "" then dset acc h.name env_val else acc
          | Option.none => acc
        else acc
    | Option.none => acc
  match h.value with
  | some lit => if lit ≠ "" ∧ ¬ dmem acc1 h.name then dset acc1 h.name lit else acc1
  | Option.none => acc1

/-- The header resolution loop over the declared headers of a service,
in declaration order. -/
def resolveHeaders (env : String → Option String) (hs : List HeaderConfig) :
    List (String × String) :=
  hs.foldl (fun acc h => headerStep env h acc) []

/-- Header resolution followed by the default injection of
`Accept: application/json` when no `Accept` header was produced. -/
def finalHeaders (env : String → Option String) (hs : List HeaderConfig) :
    List (String × String) :=
  let headers := resolveHeaders env hs
  if dmem headers "Accept" then headers
  else dset headers "Accept" "application/json"

/-- The computation of `body_json_str`: nothing when the body payload is
empty, the rendered JSON otherwise — except that a non-serializable
payload makes `json.dumps` raise a `TypeError`, which this step of the
source performs outside its `try` block. -/
def bodyJsonStrExc (params : List ParamConfig) (arguments : List (String × PyVal)) :
    Except String (Option String) :=
  if (buildBodyPayload params arguments).isEmpty then Except.ok Option.none
  else
    match jsonDumps (PyVal.dict (buildBodyPayload params arguments)) with
    | some s => Except.ok (some s)
    | Option.none => Except.error "TypeError: Object is not JSON serializable"

/- ===================== Curl rendering ===================== -/

/-- Construction of the equivalent curl command string: the base part,
one `-H` part per resolved header, and a `-d` part when a JSON body
string exists, joined with backslash-newline continuations. -/
def curlCmd (method full_url : String) (headers : List (String × String))
    (body_json_str : Option String) : String :=
  let curl_parts : List String :=
    ("curl -X " ++ method ++ " \x27" ++ full_url ++ "\x27") ::
      (headers.map (fun h => "-H \x27" ++ h.1 ++ ": " ++ h.2 ++ "\x27") ++
        (match body_json_str with
         | some b => ["-d \x27" ++ b ++ "\x27"]
         | Option.none => []))
  match curl_parts with
  | [] => ""
  | p0 :: rest =>
      if rest.isEmpty then p0
      else p0 ++ " \\\n  " ++ pyJoin " \\\n  " rest

/- ===================== HTTP model and results ===================== -/

/-- The data of the single HTTP request handed to the client: method,
resolved URL, query parameters, optional JSON body and optional header
map (mirroring the keyword arguments of the `httpx` call). -/
structure HttpRequestData where
  method : String
  url : String
  params : List (String × PyVal)
  jsonBody : Option PyVal
  headers : Option (List (String × String))

/-- A received response: status code, raw text, and the result of
`resp.json()` (`none` when the body is not decodable as JSON). -/
structure HttpResponse where
  status_code : Int
  text : String
  jsonBody : Option PyVal

/-- Outcome of executing the HTTP call: a response, an
`httpx.RequestError` (network/transport failure), or any other
exception inside the `try` block. -/
inductive HttpOutcome where
  | response : HttpResponse → HttpOutcome
  | requestError : String → HttpOutcome
  | otherError : String → HttpOutcome

/-- The full request description echoed back on every dispatched call:
method, resolved URL, query and body dicts (`none` when empty), header
map (`none` when empty) and the rendered curl command. -/
structure RequestInfo where
  method : String
  url : String
  query : Option (List (String × PyVal))
  body : Option (List (String × PyVal))
  headers : Option (List (String × String))
  curl : String

/-- The echoed `request` field of an invocation result: the empty dict
of the unknown-service branch, the missing-parameters dict, or the full
request description. -/
inductive RequestEcho where
  | empty : RequestEcho
  | missingParams : List String → RequestEcho
  | info : RequestInfo → RequestEcho

/-- The structured result dict returned by `call_rest_service`. -/
structure InvocationResult where
  ok : Bool
  status_code : Option Int
  service : String
  request : RequestEcho
  response_json : Option PyVal
  response_text : Option String
  error : Option String

/-- What an invocation does at the Python boundary: return a structured
result, or let an exception escape to the caller. -/
inductive CallResult where
  | raised : String → CallResult
  | returned : InvocationResult → CallResult

/-- Result of a modelled invocation plus the request actually handed to
the HTTP client (`none` when no network call was attempted). -/
structure CallOutcome where
  result : CallResult
  sent : Option HttpRequestData

/-- Whether the invocation handed a request to the HTTP client. -/
def CallOutcome.networkCalled (o : CallOutcome) : Bool :=
  o.sent.isSome

/-- Whether the invocation let an exception escape. -/
def CallOutcome.isRaised (o : CallOutcome) : Bool :=
  match o.result with
  | CallResult.raised _ => true
  | CallResult.returned _ => false

/-- The recurring failure-shaped result dict of the source: `ok=False`,
no status code, no response fields, the given request echo and error
message. -/
def failResult (service : String) (req : RequestEcho) (err : String) : InvocationResult :=
  { ok := false
    status_code := Option.none
    service := service
    request := req
    response_json := Option.none
    response_text := Option.none
    error := some err }

/-- Normalization of the outcome of the HTTP call into the returned
result dict: a received response yields `ok` iff the status is in
`[200, 300)`, always carries `response_text = resp.text` and carries
`response_json` exactly when the body decodes; the two `except` branches
yield network-error and unexpected-error failures. -/
def handleOutcome (service : String) (request_info : RequestInfo) :
    HttpOutcome → InvocationResult
  | HttpOutcome.response r =>
      let ok := decide (200 ≤ r.status_code ∧ r.status_code < 300)
      { ok := ok
        status_code := some r.status_code
        service := service
        request := RequestEcho.info request_info
        response_json := r.jsonBody
        response_text := some r.text
        error := if ok then Option.none else some ("HTTP " ++ toString r.status_code) }
  | HttpOutcome.requestError m =>
      failResult service (RequestEcho.info request_info)
        ("Errore di rete verso il servizio \x27" ++ service ++ "\x27: " ++ m)
  | HttpOutcome.otherError m =>
      failResult service (RequestEcho.info request_info)
        ("Errore imprevisto nella chiamata a \x27" ++ service ++ "\x27: " ++ m)

/-- Python `a or dflt` on an optional string: the default is used when
the value is `None` or empty (both falsy). -/
def pyOrStr (o : Option String) (dflt : String) : String :=
  match o with
  | some s => if s = "" then dflt else s
  | Option.none => dflt

/-- The `request_info` dict assembled by the dispatcher before the HTTP
call: resolved method and URL, query/body dicts (`None` when empty),
resolved header map (`None` when empty) and the rendered curl command. -/
def requestInfoOf (cfg : RestConfig) (env : String → Option String) (svc : ServiceConfig)
    (arguments : List (String × PyVal)) (body_json_str : Option String) : RequestInfo :=
  let base_url := rstripSlash (pyOrStr svc.base_url_override cfg.base_url)
  let url := substPathParams svc.params arguments (base_url ++ svc.path)
  let query_params := buildQueryParams svc.params arguments
  let body_payload := buildBodyPayload svc.params arguments
  let headers := finalHeaders env svc.headers
  let method := pyUpper svc.method
  let full_url := if query_params.isEmpty then url else url ++ "?" ++ pyUrlencode query_params
  { method := method
    url := url
    query := if query_params.isEmpty then Option.none else some query_params
    body := if body_payload.isEmpty then Option.none else some body_payload
    headers := if headers.isEmpty then Option.none else some headers
    curl := curlCmd method full_url headers body_json_str }

/-- The request handed to the `httpx` client: method, bound URL and
query parameters, the given JSON body (the GET branch passes none) and
the resolved headers (`None` when empty). -/
def sentRequestOf (cfg : RestConfig) (env : String → Option String) (svc : ServiceConfig)
    (arguments : List (String × PyVal)) (jsonBody : Option PyVal) : HttpRequestData :=
  { method := pyUpper svc.method
    url := substPathParams svc.params arguments
      (rstripSlash (pyOrStr svc.base_url_override cfg.base_url) ++ svc.path)
    params := buildQueryParams svc.params arguments
    jsonBody := jsonBody
    headers :=
      if (finalHeaders env svc.headers).isEmpty then Option.none
      else some (finalHeaders env svc.headers) }

/- ===================== The dispatcher (call_rest_service) ===================== -/

/-- Source function `call_rest_service`: the dispatcher.  `env` models the process
environment and `transport` the HTTP client (total: every behaviour of
the client is one of the `HttpOutcome` constructors, matching the
`try/except` structure of the source).  The one place the source can
raise outside its `try` block — `json.dumps` on a non-serializable body
payload — is modelled by `CallResult.raised`. -/
def call_rest_service (cfg : RestConfig) (env : String → Option String)
    (transport : HttpRequestData → HttpOutcome)
    (service_name : String) (arguments : List (String × PyVal)) : CallOutcome :=
  match dlookup cfg.services service_name with
  | Option.none =>
      { result := CallResult.returned (failResult service_name RequestEcho.empty
          ("Servizio \x27" ++ service_name ++ "\x27 non definito nella configurazione."))
        sent := Option.none }
  | some svc =>
    let missing_required := missingRequiredNames svc.params arguments
    if missing_required ≠ [] then
      { result := CallResult.returned (failResult service_name
          (RequestEcho.missingParams missing_required)
          ("Parametri obbligatori mancanti per service \x27" ++ service_name ++ "\x27: " ++
            pyJoin ", " missing_required))
        sent := Option.none }
    else
      match bodyJsonStrExc svc.params arguments with
      | Except.error msg => { result := CallResult.raised msg, sent := Option.none }
      | Except.ok body_json_str =>
        let request_info := requestInfoOf cfg env svc arguments body_json_str
        let body_payload := buildBodyPayload svc.params arguments
        let bodyOpt :=
          if body_payload.isEmpty then Option.none else some (PyVal.dict body_payload)
        let method := pyUpper svc.method
        if method = "GET" then
          let req := sentRequestOf cfg env svc arguments Option.none
          { result := CallResult.returned (handleOutcome service_name request_info (transport req))
            sent := some req }
        else if method = "POST" then
          let req := sentRequestOf cfg env svc arguments bodyOpt
          { result := CallResult.returned (handleOutcome service_name request_info (transport req))
            sent := some req }
        else if method = "PUT" then
          let req := sentRequestOf cfg env svc arguments bodyOpt
          { result := CallResult.returned (handleOutcome service_name request_info (transport req))
            sent := some req }
        else if method = "DELETE" then
          let req := sentRequestOf cfg env svc arguments bodyOpt
          { result := CallResult.returned (handleOutcome service_name request_info (transport req))
            sent := some req }
        else
          { result := CallResult.returned (failResult service_name
              (RequestEcho.info request_info)
              ("Metodo HTTP \x27" ++ method ++ "\x27 non supportato dal server MCP."))
            sent := Option.none }

/- ===================== Dictionary lemmas ===================== -/

theorem dlookup_dset_self {β : Type} (d : List (String × β)) (k : String) (v : β) :
    dlookup (dset d k v) k = some v := by
  induction d with
  | nil => simp [dset, dlookup]
  | cons kv rest ih =>
      obtain ⟨k1, v1⟩ := kv
      by_cases h : k1 = k
      · simp [dset, h, dlookup]
      · simp [dset, h, dlookup, ih]

theorem dlookup_dset_ne {β : Type} (d : List (String × β)) (k k1 : String) (v : β)
    (h : k1 ≠ k) : dlookup (dset d k v) k1 = dlookup d k1 := by
  induction d with
  | nil => simp [dset, dlookup, Ne.symm h]
  | cons kv rest ih =>
      obtain ⟨k2, v2⟩ := kv
      by_cases h2 : k2 = k
      · subst h2
        simp [dset, dlookup, Ne.symm h]
      · simp [dset, h2, dlookup, ih]

theorem dmem_dset_self {β : Type} (d : List (String × β)) (k : String) (v : β) :
    dmem (dset d k v) k = true := by
  simp [dmem, dlookup_dset_self]

/- ===================== Header resolution lemmas ===================== -/

theorem resolveHeaders_append (env : String → Option String)
    (hs : List HeaderConfig) (h : HeaderConfig) :
    resolveHeaders env (hs ++ [h]) = headerStep env h (resolveHeaders env hs) := by
  simp [resolveHeaders, List.foldl_append]

/-- Shared test fixture: an empty process environment. -/
def noEnv : String → Option String := fun _ => Option.none

/-- Shared test fixture: an environment holding only `TOKEN=abc`. -/
def tokenEnv : String → Option String := fun e =>
  if e = "TOKEN" then some "abc" else Option.none

/-- C3 counterexample fixture: two header declarations for the same
name `X`, both with only literal values. -/
def dupHeaders : List HeaderConfig :=
  [{ name := "X", value := some "a", env := Option.none },
   { name := "X", value := some "b", env := Option.none }]

/-- C3: the claim predicts that the later declaration of `X` (literal
`b`) overwrites the earlier resolved value `a`; the source applies a
literal only when the name is not yet resolved, so `X` stays `a`. -/
theorem c3_counterexample :
    dlookup (resolveHeaders noEnv dupHeaders) "X" = some "a" ∧
    ¬ dlookup (resolveHeaders noEnv dupHeaders) "X" = some "b" := by
  constructor
  · rfl
  · decide

/-- C3 (amended): within one HeaderSpec a set, non-empty environment
variable wins over the literal, and a later env-resolved declaration of
the same name overwrites any earlier value; but a later literal-only
declaration never overwrites an already resolved name (it only fills
names that are still unresolved). -/
theorem c3_header_precedence (env : String → Option String) (hs : List HeaderConfig)
    (n e v lit : String) (litOpt : Option String) :
    (e ≠ "" → env e = some v → v ≠ "" →
      dlookup (resolveHeaders env (hs ++ [{ name := n, value := litOpt, env := some e }])) n
        = some v) ∧
    (∀ w, dlookup (resolveHeaders env hs) n = some w →
      dlookup (resolveHeaders env (hs ++ [{ name := n, value := some lit, env := Option.none }])) n
        = some w) ∧
    (dlookup (resolveHeaders env hs) n = Option.none → lit ≠ "" →
      dlookup (resolveHeaders env (hs ++ [{ name := n, value := some lit, env := Option.none }])) n
        = some lit) := by
  refine ⟨?_, ?_, ?_⟩
  · intro he hv hvne
    rw [resolveHeaders_append]
    unfold headerStep
    cases litOpt with
    | none => simp [hv, he, hvne, dlookup_dset_self]
    | some l => simp [hv, he, hvne, dmem_dset_self, dlookup_dset_self]
  · intro w hw
    rw [resolveHeaders_append]
    unfold headerStep
    simp only []
    have hm : dmem (resolveHeaders env hs) n = true := by simp [dmem, hw]
    simp [hm, hw]
  · intro hnone hl
    rw [resolveHeaders_append]
    unfold headerStep
    have hm : dmem (resolveHeaders env hs) n = false := by simp [dmem, hnone]
    simp [hm, hl, dlookup_dset_self]

/-- C3 witness: concrete instances of all three parts of the amended
precedence statement. -/
theorem c3_witness :
    (dlookup (resolveHeaders tokenEnv
        ([{ name := "X", value := some "a", env := Option.none }] ++
          [{ name := "X", value := some "fallback", env := some "TOKEN" }])) "X" = some "abc") ∧
    (dlookup (resolveHeaders noEnv
        ([{ name := "X", value := some "a", env := Option.none }] ++
          [{ name := "X", value := some "b", env := Option.none }])) "X" = some "a") ∧
    (dlookup (resolveHeaders noEnv
        (([] : List HeaderConfig) ++
          [{ name := "X", value := some "fallback", env := Option.none }])) "X" = some "fallback") := by
  refine ⟨?_, ?_, ?_⟩
  · exact (c3_header_precedence tokenEnv [{ name := "X", value := some "a", env := Option.none }]
      "X" "TOKEN" "abc" "" (some "fallback")).1 (by decide) rfl (by decide)
  · exact (c3_header_precedence noEnv [{ name := "X", value := some "a", env := Option.none }]
      "X" "" "" "b" Option.none).2.1 "a" rfl
  · exact (c3_header_precedence noEnv [] "X" "" "" "fallback" Option.none).2.2 rfl (by decide)

/-- C9: after resolving the declared headers, a missing `Accept` is
filled with the default `application/json`, and an explicitly resolved
`Accept` is never overridden by the default. -/
theorem c9_accept_default (env : String → Option String) (hs : List HeaderConfig) :
    (dmem (resolveHeaders env hs) "Accept" = false →
      dlookup (finalHeaders env hs) "Accept" = some "application/json") ∧
    (∀ v, dlookup (resolveHeaders env hs) "Accept" = some v →
      dlookup (finalHeaders env hs) "Accept" = some v) := by
  constructor
  · intro h
    unfold finalHeaders
    simp [h, dlookup_dset_self]
  · intro v hv
    unfold finalHeaders
    have hm : dmem (resolveHeaders env hs) "Accept" = true := by simp [dmem, hv]
    simp [hm, hv]

/- ===================== C8: path parameter substitution ===================== -/

theorem substPathParams_absent (arguments : List (String × PyVal)) :
    ∀ (params : List ParamConfig) (url : String),
      (∀ q ∈ params, q.location = "path" → dlookup arguments q.name = Option.none) →
      substPathParams params arguments url = url := by
  intro params
  induction params with
  | nil => intro url _; rfl
  | cons q rest ih =>
      intro url habs
      by_cases hl : q.location = "path"
      · have hq := habs q (List.mem_cons_self q rest) hl
        unfold substPathParams at ih ⊢
        simp only [List.foldl_cons, if_pos hl, hq]
        exact ih url (fun r hr hrl => habs r (List.mem_cons_of_mem q hr) hrl)
      · unfold substPathParams at ih ⊢
        simp only [List.foldl_cons, if_neg hl]
        exact ih url (fun r hr hrl => habs r (List.mem_cons_of_mem q hr) hrl)

/-- C8: for a path-located parameter present in the argument bag, the
binder replaces the literal placeholder (the parameter name between
braces) in the URL by `str(value)`; path parameters absent from the
argument bag leave the URL unchanged (their placeholder stays). -/
theorem c8_path_binding (url : String) (p : ParamConfig)
    (arguments : List (String × PyVal)) (v : PyVal) :
    (p.location = "path" → dlookup arguments p.name = some v →
      substPathParams [p] arguments url =
        pyReplace url ("\x7b" ++ p.name ++ "\x7d") (pyStr v)) ∧
    (∀ params : List ParamConfig,
      (∀ q ∈ params, q.location = "path" → dlookup arguments q.name = Option.none) →
      substPathParams params arguments url = url) := by
  constructor
  · intro hloc hv
    unfold substPathParams
    simp [hloc, hv]
  · intro params habs
    exact substPathParams_absent arguments params url habs

/-- C8 witness fixture: the path parameter `id`. -/
def idParam : ParamConfig :=
  { name := "id", required := true, location := "path", type := "int", schema := Option.none }

/-- C8 witness: the spec example `/orders/(id)` with `id=42` resolves to
`/orders/42`, and with an empty argument bag the placeholder stays. -/
theorem c8_witness :
    (substPathParams [idParam] [("id", PyVal.int 42)] "/orders/\x7bid\x7d" =
      pyReplace "/orders/\x7bid\x7d" ("\x7b" ++ idParam.name ++ "\x7d") (pyStr (PyVal.int 42))) ∧
    pyReplace "/orders/\x7bid\x7d" ("\x7b" ++ idParam.name ++ "\x7d") (pyStr (PyVal.int 42)) =
      "/orders/42" ∧
    substPathParams [idParam] [] "/orders/\x7bid\x7d" = "/orders/\x7bid\x7d" := by
  refine ⟨?_, ?_, ?_⟩
  · exact (c8_path_binding "/orders/\x7bid\x7d" idParam [("id", PyVal.int 42)] (PyVal.int 42)).1
      rfl rfl
  · rfl
  · exact (c8_path_binding "/orders/\x7bid\x7d" idParam [] (PyVal.int 42)).2 [idParam]
      (fun q hq _ => by
        have : q = idParam := by simpa using hq
        subst this
        rfl)

/-- C9 witness: with no declared headers the default `Accept` is
injected; with an explicit `Accept` literal the resolved value wins. -/
theorem c9_witness :
    (dlookup (finalHeaders noEnv []) "Accept" = some "application/json") ∧
    (dlookup (finalHeaders noEnv [{ name := "Accept", value := some "text/xml", env := Option.none }])
      "Accept" = some "text/xml") := by
  constructor
  · exact (c9_accept_default noEnv []).1 (by decide)
  · exact (c9_accept_default noEnv
      [{ name := "Accept", value := some "text/xml", env := Option.none }]).2 "text/xml" rfl

/- ===================== C5: missing required parameters ===================== -/

/-- C5: when the service exists but at least one required parameter is
missing from the argument bag, the dispatcher returns the structured
failure whose echoed request and error message carry the complete list
of missing required names, and no network call is attempted; every
required parameter absent from the bag appears in that list. -/
theorem c5_missing_required (cfg : RestConfig) (env : String → Option String)
    (tr : HttpRequestData → HttpOutcome) (service_name : String)
    (arguments : List (String × PyVal)) (svc : ServiceConfig)
    (hsvc : dlookup cfg.services service_name = some svc)
    (hmiss : missingRequiredNames svc.params arguments ≠ []) :
    (call_rest_service cfg env tr service_name arguments).networkCalled = false ∧
    (call_rest_service cfg env tr service_name arguments).result =
      CallResult.returned (failResult service_name
        (RequestEcho.missingParams (missingRequiredNames svc.params arguments))
        ("Parametri obbligatori mancanti per service \x27" ++ service_name ++ "\x27: " ++
          pyJoin ", " (missingRequiredNames svc.params arguments))) ∧
    (∀ p ∈ svc.params, p.required = true → dmem arguments p.name = false →
      p.name ∈ missingRequiredNames svc.params arguments) := by
  refine ⟨?_, ?_, ?_⟩
  · unfold call_rest_service
    simp [hsvc, hmiss, CallOutcome.networkCalled]
  · unfold call_rest_service
    simp [hsvc, hmiss]
  · intro p hp hreq habs
    unfold missingRequiredNames
    exact List.mem_map.mpr
      ⟨p, List.mem_filter.mpr ⟨hp, by simp [hreq, habs]⟩, rfl⟩

/-- C5 witness fixture: a service with two required query parameters. -/
def svcTwoReq : ServiceConfig :=
  { name := "r"
    method := "GET"
    path := "/r"
    params :=
      [{ name := "X", required := true, location := "query", type := "string", schema := Option.none },
       { name := "Y", required := true, location := "query", type := "string", schema := Option.none }]
    headers := []
    base_url_override := Option.none }

/-- C5 witness fixture: a catalog holding only `svcTwoReq`. -/
def cfgTwoReq : RestConfig := { base_url := "http://h", services := [("r", svcTwoReq)] }

/-- Shared test fixture: a transport always answering 200 with a small
JSON body. -/
def tr200 : HttpRequestData → HttpOutcome := fun _ =>
  HttpOutcome.response
    { status_code := 200
      text := "\x7b\"a\": 1\x7d"
      jsonBody := some (PyVal.dict [("a", PyVal.int 1)]) }

/-- C5 witness: invoking the two-required-parameter service with an
empty bag makes no network call and reports both `X` and `Y`. -/
theorem c5_witness :
    (call_rest_service cfgTwoReq noEnv tr200 "r" []).networkCalled = false ∧
    (call_rest_service cfgTwoReq noEnv tr200 "r" []).result =
      CallResult.returned (failResult "r"
        (RequestEcho.missingParams (missingRequiredNames svcTwoReq.params []))
        ("Parametri obbligatori mancanti per service \x27" ++ "r" ++ "\x27: " ++
          pyJoin ", " (missingRequiredNames svcTwoReq.params []))) ∧
    (∀ p ∈ svcTwoReq.params, p.required = true → dmem ([] : List (String × PyVal)) p.name = false →
      p.name ∈ missingRequiredNames svcTwoReq.params []) :=
  c5_missing_required cfgTwoReq noEnv tr200 "r" [] svcTwoReq rfl (by decide)

/-- C5 witness evaluation: the reported list is exactly `[X, Y]`. -/
theorem c5_witness_eval : missingRequiredNames svcTwoReq.params [] = ["X", "Y"] := rfl

/- ===================== C7: unsupported HTTP methods ===================== -/

/-- C7: a service whose uppercased method is none of GET, POST, PUT or
DELETE (once the flow reaches method dispatch: the service exists, no
required parameter is missing and rendering the body JSON did not
raise) yields the unsupported-method failure and no network request. -/
theorem c7_unsupported_method (cfg : RestConfig) (env : String → Option String)
    (tr : HttpRequestData → HttpOutcome) (service_name : String)
    (arguments : List (String × PyVal)) (svc : ServiceConfig) (b : Option String)
    (hsvc : dlookup cfg.services service_name = some svc)
    (hmiss : missingRequiredNames svc.params arguments = [])
    (hexc : bodyJsonStrExc svc.params arguments = Except.ok b)
    (hget : pyUpper svc.method ≠ "GET") (hpost : pyUpper svc.method ≠ "POST")
    (hput : pyUpper svc.method ≠ "PUT") (hdel : pyUpper svc.method ≠ "DELETE") :
    (call_rest_service cfg env tr service_name arguments).networkCalled = false ∧
    (call_rest_service cfg env tr service_name arguments).result =
      CallResult.returned (failResult service_name
        (RequestEcho.info (requestInfoOf cfg env svc arguments b))
        ("Metodo HTTP \x27" ++ pyUpper svc.method ++ "\x27 non supportato dal server MCP.")) := by
  constructor
  · unfold call_rest_service
    simp [hsvc, hmiss, hexc, hget, hpost, hput, hdel, CallOutcome.networkCalled]
  · unfold call_rest_service
    simp [hsvc, hmiss, hexc, hget, hpost, hput, hdel]

/-- C7 witness fixture: a parameterless service declared with method
`PATCH`. -/
def svcPatch : ServiceConfig :=
  { name := "m", method := "PATCH", path := "/m", params := [], headers := []
    base_url_override := Option.none }

/-- C7 witness fixture: a catalog holding only `svcPatch`. -/
def cfgPatch : RestConfig := { base_url := "http://h", services := [("m", svcPatch)] }

/-- C7 witness: invoking the PATCH service fails with the
unsupported-method error and makes no network call. -/
theorem c7_witness :
    (call_rest_service cfgPatch noEnv tr200 "m" []).networkCalled = false ∧
    (call_rest_service cfgPatch noEnv tr200 "m" []).result =
      CallResult.returned (failResult "m"
        (RequestEcho.info (requestInfoOf cfgPatch noEnv svcPatch [] Option.none))
        ("Metodo HTTP \x27" ++ pyUpper svcPatch.method ++ "\x27 non supportato dal server MCP.")) :=
  c7_unsupported_method cfgPatch noEnv tr200 "m" [] svcPatch Option.none rfl rfl rfl
    (by decide) (by decide) (by decide) (by decide)

/- ===================== C10: GET requests drop the body ===================== -/

theorem strAppend_assoc : ∀ (a b c : String), a ++ b ++ c = a ++ (b ++ c)
  | String.mk la, String.mk lb, String.mk lc =>
      congrArg String.mk (List.append_assoc la lb lc)

theorem pyJoin_append_last (sep : String) (d : String) :
    ∀ xs : List String, ∃ pre : String, pyJoin sep (xs ++ [d]) = pre ++ d := by
  intro xs
  induction xs with
  | nil => exact ⟨"", rfl⟩
  | cons x rest ih =>
      cases rest with
      | nil => exact ⟨x ++ sep, rfl⟩
      | cons y ys =>
          obtain ⟨pre, hp⟩ := ih
          refine ⟨x ++ sep ++ pre, ?_⟩
          show x ++ sep ++ pyJoin sep ((y :: ys) ++ [d]) = x ++ sep ++ pre ++ d
          rw [hp, strAppend_assoc (x ++ sep) pre d]

theorem curlCmd_ends_with_body (method full_url : String)
    (headers : List (String × String)) (b : String) :
    ∃ pre : String,
      curlCmd method full_url headers (some b) = pre ++ ("-d \x27" ++ b ++ "\x27") := by
  unfold curlCmd
  simp only []
  have hne : ((headers.map (fun h => "-H \x27" ++ h.1 ++ ": " ++ h.2 ++ "\x27") ++
      ["-d \x27" ++ b ++ "\x27"])).isEmpty = false := by
    simp
  rw [if_neg (by simp [hne])]
  obtain ⟨pre, hp⟩ := pyJoin_append_last " \\\n  " ("-d \x27" ++ b ++ "\x27")
    (headers.map (fun h => "-H \x27" ++ h.1 ++ ": " ++ h.2 ++ "\x27"))
  rw [hp]
  exact ⟨_, (strAppend_assoc _ pre _).symm⟩

/-- C10: for a GET service, body-located arguments are dropped from the
outgoing HTTP request (the request handed to the client carries no JSON
body), while the echoed request description still carries the body
payload and the rendered curl command still carries the `-d` part. -/
theorem c10_get_body_omitted (cfg : RestConfig) (env : String → Option String)
    (tr : HttpRequestData → HttpOutcome) (service_name : String)
    (arguments : List (String × PyVal)) (svc : ServiceConfig) (bjs : String)
    (hsvc : dlookup cfg.services service_name = some svc)
    (hmiss : missingRequiredNames svc.params arguments = [])
    (hget : pyUpper svc.method = "GET")
    (hbody : (buildBodyPayload svc.params arguments).isEmpty = false)
    (hdumps : jsonDumps (PyVal.dict (buildBodyPayload svc.params arguments)) = some bjs) :
    (call_rest_service cfg env tr service_name arguments).sent =
      some (sentRequestOf cfg env svc arguments Option.none) ∧
    (sentRequestOf cfg env svc arguments Option.none).jsonBody = Option.none ∧
    (call_rest_service cfg env tr service_name arguments).result =
      CallResult.returned (handleOutcome service_name
        (requestInfoOf cfg env svc arguments (some bjs))
        (tr (sentRequestOf cfg env svc arguments Option.none))) ∧
    (requestInfoOf cfg env svc arguments (some bjs)).body =
      some (buildBodyPayload svc.params arguments) ∧
    (∃ pre : String, (requestInfoOf cfg env svc arguments (some bjs)).curl =
      pre ++ ("-d \x27" ++ bjs ++ "\x27")) := by
  have hexc : bodyJsonStrExc svc.params arguments = Except.ok (some bjs) := by
    unfold bodyJsonStrExc
    simp [hbody, hdumps]
  refine ⟨?_, rfl, ?_, ?_, ?_⟩
  · unfold call_rest_service
    simp [hsvc, hmiss, hexc, hget]
  · unfold call_rest_service
    simp [hsvc, hmiss, hexc, hget]
  · unfold requestInfoOf
    simp [hbody]
  · unfold requestInfoOf
    simp only []
    exact curlCmd_ends_with_body _ _ _ bjs

/-- C10 witness fixture: a lowercase-get service with one body
parameter. -/
def svcGetBody : ServiceConfig :=
  { name := "g"
    method := "get"
    path := "/g"
    params :=
      [{ name := "data", required := true, location := "body", type := "string", schema := Option.none }]
    headers := []
    base_url_override := Option.none }

/-- C10 witness fixture: a catalog holding only `svcGetBody`. -/
def cfgGetBody : RestConfig := { base_url := "http://h", services := [("g", svcGetBody)] }

/-- C10 witness: invoking the GET service with a body argument sends a
request with no JSON body while the echoed request keeps the payload. -/
theorem c10_witness :
    (call_rest_service cfgGetBody noEnv tr200 "g" [("data", PyVal.str "v")]).sent =
      some (sentRequestOf cfgGetBody noEnv svcGetBody [("data", PyVal.str "v")] Option.none) ∧
    (sentRequestOf cfgGetBody noEnv svcGetBody [("data", PyVal.str "v")] Option.none).jsonBody =
      Option.none ∧
    (requestInfoOf cfgGetBody noEnv svcGetBody [("data", PyVal.str "v")]
        (some "\x7b\"data\": \"v\"\x7d")).body =
      some (buildBodyPayload svcGetBody.params [("data", PyVal.str "v")]) := by
  have h := c10_get_body_omitted cfgGetBody noEnv tr200 "g" [("data", PyVal.str "v")]
    svcGetBody "\x7b\"data\": \"v\"\x7d" rfl rfl rfl rfl rfl
  exact ⟨h.1, h.2.1, h.2.2.2.1⟩

/-- C10 witness evaluation: the rendered curl command of the GET call
still carries the `-d` part with the JSON body. -/
theorem c10_witness_curl :
    (requestInfoOf cfgGetBody noEnv svcGetBody [("data", PyVal.str "v")]
        (some "\x7b\"data\": \"v\"\x7d")).curl =
      "curl -X GET \x27http://h/g\x27 \\\n  " ++
        "-H \x27Accept: application/json\x27 \\\n  " ++
        "-d \x27\x7b\"data\": \"v\"\x7d\x27" := by
  rfl

/- ===================== The dispatcher case analysis ===================== -/

/-- Every invocation lands in one of three shapes: the escaped
`json.dumps` exception (only under its exact preconditions), a
transport-handled call, or a locally-built failure result with no
network call. -/
theorem call_shape (cfg : RestConfig) (env : String → Option String)
    (tr : HttpRequestData → HttpOutcome) (name : String)
    (args : List (String × PyVal)) :
    (∃ svc msg, dlookup cfg.services name = some svc ∧
      missingRequiredNames svc.params args = [] ∧
      bodyJsonStrExc svc.params args = Except.error msg ∧
      (call_rest_service cfg env tr name args).result = CallResult.raised msg ∧
      (call_rest_service cfg env tr name args).sent = Option.none) ∨
    (∃ req ri, (call_rest_service cfg env tr name args).sent = some req ∧
      (call_rest_service cfg env tr name args).result =
        CallResult.returned (handleOutcome name ri (tr req))) ∨
    (∃ echo msg,
      (call_rest_service cfg env tr name args).result =
        CallResult.returned (failResult name echo msg) ∧
      (call_rest_service cfg env tr name args).sent = Option.none) := by
  cases hsvc : dlookup cfg.services name with
  | none =>
      exact Or.inr (Or.inr ⟨RequestEcho.empty,
        "Servizio \x27" ++ name ++ "\x27 non definito nella configurazione.",
        by simp [call_rest_service, hsvc], by simp [call_rest_service, hsvc]⟩)
  | some svc =>
      by_cases hmiss : missingRequiredNames svc.params args ≠ []
      · exact Or.inr (Or.inr ⟨RequestEcho.missingParams (missingRequiredNames svc.params args),
          "Parametri obbligatori mancanti per service \x27" ++ name ++ "\x27: " ++
            pyJoin ", " (missingRequiredNames svc.params args),
          by simp [call_rest_service, hsvc, hmiss],
          by simp [call_rest_service, hsvc, hmiss]⟩)
      · cases hexc : bodyJsonStrExc svc.params args with
        | error msg =>
            exact Or.inl ⟨svc, msg, rfl, not_not.mp hmiss, hexc,
              by simp [call_rest_service, hsvc, hmiss, hexc],
              by simp [call_rest_service, hsvc, hmiss, hexc]⟩
        | ok b =>
            by_cases hget : pyUpper svc.method = "GET"
            · exact Or.inr (Or.inl ⟨sentRequestOf cfg env svc args Option.none,
                requestInfoOf cfg env svc args b,
                by simp [call_rest_service, hsvc, hmiss, hexc, hget],
                by simp [call_rest_service, hsvc, hmiss, hexc, hget]⟩)
            · by_cases hpost : pyUpper svc.method = "POST"
              · exact Or.inr (Or.inl ⟨sentRequestOf cfg env svc args
                  (if (buildBodyPayload svc.params args).isEmpty then Option.none
                    else some (PyVal.dict (buildBodyPayload svc.params args))),
                  requestInfoOf cfg env svc args b,
                  by simp [call_rest_service, hsvc, hmiss, hexc, hget, hpost],
                  by simp [call_rest_service, hsvc, hmiss, hexc, hget, hpost]⟩)
              · by_cases hput : pyUpper svc.method = "PUT"
                · exact Or.inr (Or.inl ⟨sentRequestOf cfg env svc args
                    (if (buildBodyPayload svc.params args).isEmpty then Option.none
                      else some (PyVal.dict (buildBodyPayload svc.params args))),
                    requestInfoOf cfg env svc args b,
                    by simp [call_rest_service, hsvc, hmiss, hexc, hget, hpost, hput],
                    by simp [call_rest_service, hsvc, hmiss, hexc, hget, hpost, hput]⟩)
                · by_cases hdel : pyUpper svc.method = "DELETE"
                  · exact Or.inr (Or.inl ⟨sentRequestOf cfg env svc args
                      (if (buildBodyPayload svc.params args).isEmpty then Option.none
                        else some (PyVal.dict (buildBodyPayload svc.params args))),
                      requestInfoOf cfg env svc args b,
                      by simp [call_rest_service, hsvc, hmiss, hexc, hget, hpost, hput, hdel],
                      by simp [call_rest_service, hsvc, hmiss, hexc, hget, hpost, hput, hdel]⟩)
                  · exact Or.inr (Or.inr ⟨RequestEcho.info (requestInfoOf cfg env svc args b),
                      "Metodo HTTP \x27" ++ pyUpper svc.method ++ "\x27 non supportato dal server MCP.",
                      by simp [call_rest_service, hsvc, hmiss, hexc, hget, hpost, hput, hdel],
                      by simp [call_rest_service, hsvc, hmiss, hexc, hget, hpost, hput, hdel]⟩)

theorem handleOutcome_error_iff (name : String) (ri : RequestInfo) (o : HttpOutcome) :
    ((handleOutcome name ri o).error = Option.none ↔ (handleOutcome name ri o).ok = true) := by
  cases o with
  | response r =>
      unfold handleOutcome
      by_cases h : 200 ≤ r.status_code ∧ r.status_code < 300
      · simp [h]
      · simp [h]
  | requestError m => simp [handleOutcome, failResult]
  | otherError m => simp [handleOutcome, failResult]

/- ===================== C1: result field invariants ===================== -/

/-- C1 (amended): every structured result returned by the dispatcher
has `error = None` iff `ok = True`; and whenever the HTTP call completes
with a response, the result always carries `response_text = resp.text`
(the raw body) while `response_json` carries exactly the decoded JSON
(`None` when undecodable) — the two fields are not mutually exclusive:
both are populated when the body decodes. -/
theorem c1_result_invariants (cfg : RestConfig) (env : String → Option String)
    (tr : HttpRequestData → HttpOutcome) (name : String)
    (args : List (String × PyVal)) :
    (∀ r, (call_rest_service cfg env tr name args).result = CallResult.returned r →
      (r.error = Option.none ↔ r.ok = true)) ∧
    (∀ req resp r, (call_rest_service cfg env tr name args).sent = some req →
      tr req = HttpOutcome.response resp →
      (call_rest_service cfg env tr name args).result = CallResult.returned r →
      r.response_text = some resp.text ∧ r.response_json = resp.jsonBody) := by
  rcases call_shape cfg env tr name args with
    ⟨svc, msg, _, _, _, hr, hs⟩ | ⟨req, ri, hs, hr⟩ | ⟨echo, msg, hr, hs⟩
  · constructor
    · intro r h
      rw [hr] at h
      exact CallResult.noConfusion h
    · intro req resp r hsent _ _
      rw [hs] at hsent
      exact Option.noConfusion hsent
  · constructor
    · intro r h
      rw [hr] at h
      have h2 := CallResult.returned.inj h
      subst h2
      exact handleOutcome_error_iff name ri (tr req)
    · intro req2 resp r hsent htr hres
      rw [hs] at hsent
      have h2 := Option.some.inj hsent
      subst h2
      rw [hr] at hres
      have h3 := CallResult.returned.inj hres
      subst h3
      rw [htr]
      unfold handleOutcome
      exact ⟨rfl, rfl⟩
  · constructor
    · intro r h
      rw [hr] at h
      have h2 := CallResult.returned.inj h
      subst h2
      simp [failResult]
    · intro req resp r hsent _ _
      rw [hs] at hsent
      exact Option.noConfusion hsent

/-- Shared test fixture: a parameterless, headerless GET service. -/
def svcSimple : ServiceConfig :=
  { name := "s", method := "GET", path := "/x", params := [], headers := []
    base_url_override := Option.none }

/-- Shared test fixture: a catalog holding only `svcSimple`. -/
def cfgSimple : RestConfig := { base_url := "http://h", services := [("s", svcSimple)] }

/-- C1 witness: with the 200/JSON transport, the returned result of the
simple GET service carries the raw text and the decoded JSON. -/
theorem c1_witness :
    (handleOutcome "s" (requestInfoOf cfgSimple noEnv svcSimple [] Option.none)
        (tr200 (sentRequestOf cfgSimple noEnv svcSimple [] Option.none))).response_text =
      some "\x7b\"a\": 1\x7d" ∧
    (handleOutcome "s" (requestInfoOf cfgSimple noEnv svcSimple [] Option.none)
        (tr200 (sentRequestOf cfgSimple noEnv svcSimple [] Option.none))).response_json =
      some (PyVal.dict [("a", PyVal.int 1)]) :=
  (c1_result_invariants cfgSimple noEnv tr200 "s" []).2
    (sentRequestOf cfgSimple noEnv svcSimple [] Option.none)
    { status_code := 200, text := "\x7b\"a\": 1\x7d"
      jsonBody := some (PyVal.dict [("a", PyVal.int 1)]) }
    (handleOutcome "s" (requestInfoOf cfgSimple noEnv svcSimple [] Option.none)
      (tr200 (sentRequestOf cfgSimple noEnv svcSimple [] Option.none)))
    rfl rfl rfl

/-- The returned structured result of an invocation, when no exception
escaped. -/
def returnedResult (o : CallOutcome) : Option InvocationResult :=
  match o.result with
  | CallResult.returned r => some r
  | CallResult.raised _ => Option.none

/-- C1 counterexample: on a completed response whose body decodes as
JSON, the returned result populates `response_json` and `response_text`
at once — they are not mutually exclusive as the claim states. -/
theorem c1_counterexample :
    ((returnedResult (call_rest_service cfgSimple noEnv tr200 "s" [])).map
      (fun r => r.response_json.isSome)) = some true ∧
    ((returnedResult (call_rest_service cfgSimple noEnv tr200 "s" [])).map
      (fun r => r.response_text.isSome)) = some true := ⟨rfl, rfl⟩

/- ===================== C2: exception propagation ===================== -/

theorem bodyJsonStrExc_error_iff (params : List ParamConfig)
    (arguments : List (String × PyVal)) :
    (∃ m, bodyJsonStrExc params arguments = Except.error m) ↔
      ((buildBodyPayload params arguments).isEmpty = false ∧
        jsonDumps (PyVal.dict (buildBodyPayload params arguments)) = Option.none) := by
  unfold bodyJsonStrExc
  by_cases hb : (buildBodyPayload params arguments).isEmpty
  · simp [hb]
  · simp only [hb, if_false, Bool.not_eq_true] at *
    cases hd : jsonDumps (PyVal.dict (buildBodyPayload params arguments)) with
    | none => simp [hb, hd]
    | some s => simp [hb, hd]

/-- C2 (amended): the dispatcher converts every failure of the error
taxonomy into a structured result, with exactly one exception-escape
path: when the assembled body payload is non-empty and `json.dumps`
cannot serialize it, the `TypeError` raised while rendering the curl
body (outside the `try` block) escapes to the caller. -/
theorem c2_raise_characterization (cfg : RestConfig) (env : String → Option String)
    (tr : HttpRequestData → HttpOutcome) (name : String)
    (args : List (String × PyVal)) :
    (call_rest_service cfg env tr name args).isRaised = true ↔
      (∃ svc, dlookup cfg.services name = some svc ∧
        missingRequiredNames svc.params args = [] ∧
        (buildBodyPayload svc.params args).isEmpty = false ∧
        jsonDumps (PyVal.dict (buildBodyPayload svc.params args)) = Option.none) := by
  constructor
  · intro h
    rcases call_shape cfg env tr name args with
      ⟨svc, msg, hsvc, hmiss, herr, hr, _⟩ | ⟨req, ri, _, hr⟩ | ⟨echo, msg, hr, _⟩
    · refine ⟨svc, hsvc, hmiss, ?_⟩
      exact (bodyJsonStrExc_error_iff svc.params args).mp ⟨msg, herr⟩
    · rw [CallOutcome.isRaised, hr] at h
      exact absurd h (by simp)
    · rw [CallOutcome.isRaised, hr] at h
      exact absurd h (by simp)
  · rintro ⟨svc, hsvc, hmiss, hb, hd⟩
    have hexc : bodyJsonStrExc svc.params args =
        Except.error "TypeError: Object is not JSON serializable" := by
      unfold bodyJsonStrExc
      simp [hb, hd]
    unfold call_rest_service
    simp [hsvc, hmiss, hexc, CallOutcome.isRaised]

/-- C2 counterexample fixture: a POST service with one body
parameter. -/
def svcPostBody : ServiceConfig :=
  { name := "p"
    method := "POST"
    path := "/y"
    params :=
      [{ name := "data", required := true, location := "body", type := "object", schema := Option.none }]
    headers := []
    base_url_override := Option.none }

/-- C2 counterexample fixture: a catalog holding only `svcPostBody`. -/
def cfgPostBody : RestConfig := { base_url := "http://h", services := [("p", svcPostBody)] }

/-- C2 counterexample: invoking with a non-JSON-serializable argument
value bound to a body parameter lets the `json.dumps` `TypeError`
escape `invoke` — the dispatcher does raise for some argument maps. -/
theorem c2_counterexample :
    (call_rest_service cfgPostBody noEnv tr200 "p" [("data", PyVal.obj 0)]).isRaised = true ∧
    (call_rest_service cfgPostBody noEnv tr200 "p" [("data", PyVal.obj 0)]).networkCalled = false :=
  ⟨rfl, rfl⟩

/- ===================== C4: schema structural invariant ===================== -/

mutual
/-- The structural invariant of the spec on a schema node: `fields`
non-empty only for type `object`, `items` set only for type `array`,
never both populated, recursively at every node. -/
def schemaInvB : JsonSchemaField → Bool
  | JsonSchemaField.mk _ t _ flds itm =>
      (flds.isEmpty || t == "object") &&
      (itm.isNone || t == "array") &&
      (flds.isEmpty || itm.isNone) &&
      schemaInvListB flds &&
      (match itm with
       | some i => schemaInvB i
       | Option.none => true)

/-- The invariant on every node of a list of schema fields. -/
def schemaInvListB : List JsonSchemaField → Bool
  | [] => true
  | f :: fs => schemaInvB f && schemaInvListB fs
end

theorem schemaInvListB_of_all :
    ∀ l : List XmlElem, (∀ e ∈ l, schemaInvB (parse_json_field e) = true) →
      schemaInvListB (parseFieldChildren l) = true := by
  intro l
  induction l with
  | nil => intro _; rfl
  | cons e rest ih =>
      intro h
      by_cases ht : e.tag = "Field"
      · simp only [parseFieldChildren, ht, if_pos, if_true]
        simp [schemaInvListB, h e (List.mem_cons_self e rest),
          ih (fun x hx => h x (List.mem_cons_of_mem e hx))]
      · simp only [parseFieldChildren, ht, if_neg, ite_false]
        exact ih (fun x hx => h x (List.mem_cons_of_mem e hx))

theorem parseItemChild_mem :
    ∀ (l : List XmlElem) (s : JsonSchemaField), parseItemChild l = some s →
      ∃ e ∈ l, s = parseItemElem e := by
  intro l
  induction l with
  | nil => intro s h; exact Option.noConfusion h
  | cons e rest ih =>
      intro s h
      by_cases ht : e.tag = "Item"
      · rw [parseItemChild, if_pos ht] at h
        exact ⟨e, List.mem_cons_self e rest, (Option.some.inj h).symm⟩
      · rw [parseItemChild, if_neg ht] at h
        obtain ⟨x, hx, hs⟩ := ih s h
        exact ⟨x, List.mem_cons_of_mem e hx, hs⟩

theorem parseItemElem_inv (e : XmlElem)
    (h : ∀ x ∈ e.children, schemaInvB (parse_json_field x) = true) :
    schemaInvB (parseItemElem e) = true := by
  obtain ⟨t, a, ch⟩ := e
  have hch : ∀ x ∈ ch, schemaInvB (parse_json_field x) = true := h
  by_cases hobj : (dlookup a "type").getD "object" = "object"
  · simp [parseItemElem, hobj, schemaInvB, schemaInvListB_of_all ch hch]
  · simp [parseItemElem, hobj, schemaInvB, schemaInvListB]

theorem parse_json_field_inv : ∀ el : XmlElem, schemaInvB (parse_json_field el) = true := by
  have main : ∀ (n : Nat) (el : XmlElem), sizeOf el ≤ n →
      schemaInvB (parse_json_field el) = true := by
    intro n
    induction n with
    | zero =>
        intro el h
        exfalso
        cases el with
        | mk t a c => simp [XmlElem.mk.sizeOf_spec] at h
    | succ n ih =>
        intro el hle
        obtain ⟨t, a, ch⟩ := el
        have hsz : sizeOf ch < Nat.succ n := by
          have := XmlElem.mk.sizeOf_spec t a ch
          omega
        have hch : ∀ e ∈ ch, schemaInvB (parse_json_field e) = true := by
          intro e he
          apply ih
          have h1 : sizeOf e < sizeOf ch := List.sizeOf_lt_of_mem he
          omega
        have hgrand : ∀ e ∈ ch, ∀ x ∈ e.children,
            schemaInvB (parse_json_field x) = true := by
          intro e he x hx
          apply ih
          have h1 : sizeOf e < sizeOf ch := List.sizeOf_lt_of_mem he
          have h2 : sizeOf x < sizeOf e := by
            obtain ⟨t2, a2, ch2⟩ := e
            have h3 : sizeOf x < sizeOf ch2 := List.sizeOf_lt_of_mem hx
            have := XmlElem.mk.sizeOf_spec t2 a2 ch2
            omega
          omega
        rw [parse_json_field]
        by_cases hobj : (dlookup a "type").getD "string" = "object"
        · simp [hobj, schemaInvB, schemaInvListB_of_all ch hch]
        · by_cases harr : (dlookup a "type").getD "string" = "array"
          · simp only [hobj, harr, if_pos, if_neg, ite_true, ite_false]
            cases hitem : parseItemChild ch with
            | none => simp [harr, hobj, hitem, schemaInvB, schemaInvListB]
            | some s =>
                obtain ⟨e, he, hs⟩ := parseItemChild_mem ch s hitem
                subst hs
                simp [harr, hobj, hitem, schemaInvB, schemaInvListB,
                  parseItemElem_inv e (hgrand e he)]
          · simp [hobj, harr, schemaInvB, schemaInvListB]
  intro el
  exact main (sizeOf el) el (Nat.le_refl _)

theorem parseFieldChildren_nonempty :
    ∀ l : List XmlElem, (l.filter (fun c => c.tag = "Field")).isEmpty = false →
      (parseFieldChildren l).isEmpty = false := by
  intro l
  induction l with
  | nil => intro h; exact absurd h (by simp)
  | cons e rest ih =>
      intro h
      by_cases ht : e.tag = "Field"
      · simp [parseFieldChildren, ht]
      · simp only [List.filter_cons, ht, decide_eq_true_eq, if_neg] at h
        simp only [parseFieldChildren, ht, if_neg, ite_false]
        exact ih (by simpa using h)

/-- C4 (amended): every node built by `_parse_json_field` satisfies the
structural invariant; the root node built by
`_parse_json_schema_from_param` appends the declared fields regardless
of the declared parameter type, so it satisfies the invariant exactly when the
declared parameter type is `object` (or empty, which defaults to
`object`). -/
theorem c4_schema_invariant :
    (∀ el : XmlElem, schemaInvB (parse_json_field el) = true) ∧
    (∀ (el : XmlElem) (pt : String) (root : JsonSchemaField),
      parse_json_schema_from_param el pt = some root →
      (schemaInvB root = true ↔ (pt = "object" ∨ pt = ""))) := by
  constructor
  · exact parse_json_field_inv
  · intro el pt root hroot
    unfold parse_json_schema_from_param at hroot
    by_cases hempty : (el.children.filter (fun c => c.tag = "Field")).isEmpty
    · rw [if_pos hempty] at hroot
      exact Option.noConfusion hroot
    · rw [if_neg hempty] at hroot
      have hroot2 := Option.some.inj hroot
      subst hroot2
      have hne : (parseFieldChildren el.children).isEmpty = false :=
        parseFieldChildren_nonempty el.children (by simpa using hempty)
      have hall : schemaInvListB (parseFieldChildren el.children) = true :=
        schemaInvListB_of_all el.children (fun e _ => parse_json_field_inv e)
      by_cases hpt : pt = ""
      · simp [hpt, schemaInvB, hne, hall]
      · simp [hpt, schemaInvB, hne, hall]

/-- C4 counterexample fixture: a `Param` declared with type `string`
that nevertheless contains a `Field` sub-element. -/
def paramStringWithField : XmlElem :=
  XmlElem.mk "Param" [("name", "P"), ("type", "string")]
    [XmlElem.mk "Field" [("name", "a")] []]

/-- C4 counterexample: schema construction for a non-object parameter
with declared fields produces a root whose `fields` list is non-empty
while its type is `string` — the invariant fails on that root. -/
theorem c4_counterexample :
    ((parse_json_schema_from_param paramStringWithField "string").map
      (fun r => r.type)) = some "string" ∧
    ((parse_json_schema_from_param paramStringWithField "string").map
      (fun r => r.fields.isEmpty)) = some false ∧
    ((parse_json_schema_from_param paramStringWithField "string").map schemaInvB) =
      some false := ⟨rfl, rfl, rfl⟩

/-- C4 witness fixture: a well-formed object parameter with one scalar
field. -/
def paramObjectWithField : XmlElem :=
  XmlElem.mk "Param" [("name", "P"), ("type", "object")]
    [XmlElem.mk "Field" [("name", "a"), ("type", "string")] []]

/-- C4 witness: the invariant holds on a concrete parsed field, and the
root built for an object-typed parameter satisfies it. -/
theorem c4_witness :
    schemaInvB (parse_json_field (XmlElem.mk "Field" [("name", "a"), ("type", "string")] [])) =
      true ∧
    (schemaInvB (JsonSchemaField.mk Option.none "object" false
        [JsonSchemaField.mk (some "a") "string" false [] Option.none] Option.none) = true ↔
      ("object" = "object" ∨ "object" = "")) :=
  ⟨(c4_schema_invariant).1 (XmlElem.mk "Field" [("name", "a"), ("type", "string")] []),
   (c4_schema_invariant).2 paramObjectWithField "object"
     (JsonSchemaField.mk Option.none "object" false
       [JsonSchemaField.mk (some "a") "string" false [] Option.none] Option.none) rfl⟩

/- ===================== C6: catalog load failures ===================== -/

/-- Whether a load attempt ended in a `ConfigError` (`ValueError` in
the source). -/
def loadFails (e : Except String RestConfig) : Bool :=
  match e with
  | Except.error _ => true
  | Except.ok _ => false

theorem parseServices_foldl_skip :
    ∀ (els : List XmlElem) (acc : List (String × ServiceConfig)),
      els.foldl
        (fun acc el =>
          match parseServiceElem el with
          | some svc => dset acc svc.name svc
          | Option.none => acc) acc =
      (els.filter (fun el => (parseServiceElem el).isSome)).foldl
        (fun acc el =>
          match parseServiceElem el with
          | some svc => dset acc svc.name svc
          | Option.none => acc) acc := by
  intro els
  induction els with
  | nil => intro acc; rfl
  | cons el rest ih =>
      intro acc
      cases h : parseServiceElem el with
      | some svc =>
          simp only [List.foldl_cons, List.filter_cons, h, Option.isSome_some, if_pos,
            ite_true]
          rw [ih]
      | none =>
          simp only [List.foldl_cons, List.filter_cons, h, Option.isSome_none, if_neg,
            Bool.false_eq_true, ite_false]
          rw [ih]

/-- C6 (amended): loading fails exactly when the source is absent or
unparseable, the root tag is not `RestServices`, or the `baseUrl`
attribute is missing or becomes empty once trailing slashes are
stripped (so a value made only of slashes, although present and
non-empty, also fails); malformed sub-elements never fail the load:
services that do not parse contribute nothing, and a parameter without
a name or a service without a path is skipped. -/
theorem c6_load_failure (src : Option XmlElem) (els : List XmlElem) (el el2 : XmlElem) :
    (loadFails (load_rest_config_from_xml src) = true ↔
      (src = Option.none ∨ ∃ root, src = some root ∧
        (root.tag ≠ "RestServices" ∨ rstripSlash ((attrGet root "baseUrl").getD "") = ""))) ∧
    (parseServices els = parseServices (els.filter (fun e => (parseServiceElem e).isSome))) ∧
    (attrGet el "name" = Option.none → parseParamElem el = Option.none) ∧
    (attrGetD el2 "path" "" = "" → parseServiceElem el2 = Option.none) := by
  refine ⟨?_, ?_, ?_, ?_⟩
  · cases src with
    | none => simp [load_rest_config_from_xml, loadFails]
    | some root =>
        by_cases ht : root.tag = "RestServices"
        · by_cases hb : rstripSlash ((attrGet root "baseUrl").getD "") = ""
          · simp [load_rest_config_from_xml, loadFails, ht, hb]
          · simp [load_rest_config_from_xml, loadFails, ht, hb]
        · simp [load_rest_config_from_xml, loadFails, ht]
  · unfold parseServices
    exact parseServices_foldl_skip els []
  · intro h
    unfold parseParamElem
    simp [h]
  · intro h
    unfold parseServiceElem
    simp [h]

/-- C6 counterexample fixture: a catalog whose `baseUrl` is the single
character `/` — present and non-empty. -/
def slashBaseCatalog : XmlElem := XmlElem.mk "RestServices" [("baseUrl", "/")] []

/-- C6 counterexample: the claim says a present base URL never makes
the load fail on its own account, but `baseUrl="/"` is stripped to the
empty string and the load raises `ConfigError`. -/
theorem c6_counterexample :
    attrGet slashBaseCatalog "baseUrl" = some "/" ∧
    ("/" : String) ≠ "" ∧
    slashBaseCatalog.tag = "RestServices" ∧
    loadFails (load_rest_config_from_xml (some slashBaseCatalog)) = true :=
  ⟨rfl, by decide, rfl, rfl⟩

/-- C6 witness fixtures: a malformed service element (no path). -/
def svcElemNoPath : XmlElem := XmlElem.mk "Service" [("name", "s")] []

/-- C6 witness fixture: a parameter element without a name. -/
def paramElemNoName : XmlElem := XmlElem.mk "Param" [("required", "true")] []

/-- C6 witness: a missing source fails; a present, well-formed base URL
loads even with malformed sub-elements, which are skipped. -/
theorem c6_witness :
    (loadFails (load_rest_config_from_xml Option.none) = true ↔
      ((Option.none : Option XmlElem) = Option.none ∨ ∃ root, (Option.none : Option XmlElem) = some root ∧
        (root.tag ≠ "RestServices" ∨ rstripSlash ((attrGet root "baseUrl").getD "") = ""))) ∧
    parseServices [svcElemNoPath] =
      parseServices ([svcElemNoPath].filter (fun e => (parseServiceElem e).isSome)) ∧
    parseParamElem paramElemNoName = Option.none ∧
    parseServiceElem svcElemNoPath = Option.none := by
  have h := c6_load_failure Option.none [svcElemNoPath] paramElemNoName svcElemNoPath
  exact ⟨h.1, h.2.1, h.2.2.1 rfl, h.2.2.2 rfl⟩

end GestOrder
